import Mathlib

/-!
Shallow embedding of the `webgpu-bg` renderer engine
(`src/unnamed/part_000` = `webgpuBackground.ts`, together with the
renderer descriptor `perlinNoise1` from `src/renderers/`), and proofs of
the specification claims about it.

Modelling conventions:
* JavaScript numbers are modelled as exact rationals `ℚ` (the claims under
  scrutiny only involve small integers and exact decimal constants, so no
  floating-point rounding is observable in them).
* `Math.floor` is `Int.floor`, `Math.max`/`Math.min` are `max`/`min`.
* The `Float32Array` uniform scratch buffer is a `List ℚ` of length 16;
  `buf[i] = v` is `List.set buf i v`.
* The mutable engine closure state (`pausedByVisibility`, `rafId`,
  `startTime`, `width`, `height`, `dpr`, `uniformData`, `mergedParams`, the
  registered observers, and the GPU uniform buffer) is an explicit
  `EngineState` record threaded through the operations; GPU queue
  submissions are recorded in a `submissions` log (the list of frame
  timestamps submitted), and `uniformBuffer.destroy()` invocations are
  counted in `uniformBufferDestroyed`.
* Ambient browser state read by the engine (`window.devicePixelRatio`,
  `canvas.clientWidth/Height`, `document.hidden`) is a `SurfaceEnv`
  record passed to the operations that read it; `devicePixelRatio` is an
  `Option ℚ` where `none` models an absent value and `some 0` the other
  falsy number, so that `window.devicePixelRatio || 1` becomes an explicit
  match.
-/

namespace WebgpuBg

/-- `PerlinNoise1Params` from `src/renderers/perlinNoise1.ts`: the flat
record of tunable floats for the only registered renderer. -/
structure PerlinNoise1Params where
  baseR : ℚ
  baseG : ℚ
  baseB : ℚ
  colAr : ℚ
  colAg : ℚ
  colAb : ℚ
  colBr : ℚ
  colBg : ℚ
  colBb : ℚ
  speed : ℚ
  pad0 : ℚ
  pad1 : ℚ
  deriving DecidableEq, Repr

/-- `Partial<PerlinNoise1Params>`: the caller's override object; a key that
is absent from the object literal is `none`. -/
structure PartialParams where
  baseR : Option ℚ := none
  baseG : Option ℚ := none
  baseB : Option ℚ := none
  colAr : Option ℚ := none
  colAg : Option ℚ := none
  colAb : Option ℚ := none
  colBr : Option ℚ := none
  colBg : Option ℚ := none
  colBb : Option ℚ := none
  speed : Option ℚ := none
  pad0 : Option ℚ := none
  pad1 : Option ℚ := none
  deriving DecidableEq, Repr

/-- The spread merge `{ ...descriptor.defaultParams, ...params }` from
`createBackground` (part_000, line 26): keys present in the override win,
all other keys keep the default value. -/
def mergeParams (d : PerlinNoise1Params) (o : PartialParams) : PerlinNoise1Params where
  baseR := o.baseR.getD d.baseR
  baseG := o.baseG.getD d.baseG
  baseB := o.baseB.getD d.baseB
  colAr := o.colAr.getD d.colAr
  colAg := o.colAg.getD d.colAg
  colAb := o.colAb.getD d.colAb
  colBr := o.colBr.getD d.colBr
  colBg := o.colBg.getD d.colBg
  colBb := o.colBb.getD d.colBb
  speed := o.speed.getD d.speed
  pad0 := o.pad0.getD d.pad0
  pad1 := o.pad1.getD d.pad1

/-- `RendererDescriptor` from `src/renderer.ts`, specialised to the one
parameter record in the registry. The WGSL shader source is opaque to every
claim and is represented only by its presence in the source file, not
embedded. -/
structure RendererDescriptor where
  id : String
  defaultParams : PerlinNoise1Params
  uniformFloats : ℕ
  writeUniforms : List ℚ → ℚ → ℚ → ℚ → ℚ → PerlinNoise1Params → List ℚ

/-- The `perlinNoise1` descriptor from `src/renderers/perlinNoise1.ts`:
default parameter values and the uniform writer `writeUniforms`, which
fills `buf[0..3]` with `time, width, height, dpr` and `buf[4..13]` with the
ten named parameters in declared order, leaving `buf[14]`, `buf[15]`
untouched. -/
def perlinNoise1 : RendererDescriptor where
  id := "perlinNoise1"
  defaultParams :=
    { baseR := 6/100, baseG := 8/100, baseB := 12/100
      colAr := 10/100, colAg := 35/100, colAb := 85/100
      colBr := 85/100, colBg := 25/100, colBb := 55/100
      speed := 15/100
      pad0 := 0, pad1 := 0 }
  uniformFloats := 16
  writeUniforms := fun buf time width height dpr p =>
    ((((((((((((((buf.set 0 time).set 1 width).set 2 height).set 3 dpr).set
      4 p.baseR).set 5 p.baseG).set 6 p.baseB).set
      7 p.colAr).set 8 p.colAg).set 9 p.colAb).set
      10 p.colBr).set 11 p.colBg).set 12 p.colBb).set
      13 p.speed)

/-- The ambient browser state read by the engine: `window.devicePixelRatio`
(`none` models an absent value, `some 0` the zero value, both falsy in
JavaScript), `canvas.clientWidth`, `canvas.clientHeight`, and
`document.hidden`. -/
structure SurfaceEnv where
  devicePixelRatio : Option ℚ
  clientWidth : ℚ
  clientHeight : ℚ
  hidden : Bool
  deriving DecidableEq, Repr

/-- The `Options` record of `createBackground` (part_000, lines 9–13); a
missing field is `none` and is resolved with its documented default
(`respectReducedMotion` → `true`, `maxDpr` → `3`). -/
structure Options where
  powerPreference : Option String := none
  respectReducedMotion : Option Bool := none
  maxDpr : Option ℚ := none
  deriving DecidableEq, Repr

/-- The mutable state captured by the `createBackground` closure
(part_000): the merged live parameter object, the construction-time
animation decision, option values, the visibility pause flag, whether the
visibility listener and the `ResizeObserver` are currently registered, the
reused uniform scratch buffer, current geometry, the animation-frame
handle, the clock origin, the ambient clock, the log of frame timestamps
submitted to the GPU queue, and the number of times
`uniformBuffer.destroy()` has been invoked. -/
structure EngineState where
  mergedParams : PerlinNoise1Params
  shouldAnimate : Bool
  maxDpr : ℚ
  pausedByVisibility : Bool
  visibilityListenerRegistered : Bool
  roConnected : Bool
  uniformData : List ℚ
  width : ℤ
  height : ℤ
  dpr : ℚ
  rafId : Option ℕ
  nextRafId : ℕ
  startTime : ℚ
  now : ℚ
  submissions : List ℚ
  uniformBufferDestroyed : ℕ
  deriving DecidableEq, Repr

/-- `configure()` (part_000, lines 90–101):
`dpr = Math.max(1, Math.min(maxDpr, window.devicePixelRatio || 1))`,
`cssW = Math.max(1, Math.floor(canvas.clientWidth))` (likewise `cssH`),
`width = Math.max(1, Math.floor(cssW * dpr))` (likewise `height`). The
assignment to `canvas.width/height` and the presentation-surface
reconfiguration carry no further numeric state and are not tracked. -/
def configure (env : SurfaceEnv) (s : EngineState) : EngineState :=
  let dpr := max 1 (min s.maxDpr
    (match env.devicePixelRatio with
     | none => 1
     | some x => if x = 0 then 1 else x))
  let cssW : ℤ := max 1 ⌊env.clientWidth⌋
  let cssH : ℤ := max 1 ⌊env.clientHeight⌋
  let width : ℤ := max 1 ⌊(cssW : ℚ) * dpr⌋
  let height : ℤ := max 1 ⌊(cssH : ℚ) * dpr⌋
  { s with dpr := dpr, width := width, height := height }

/-- `drawFrame(timeSeconds)` (part_000, lines 103–122): write the uniforms
for the current geometry and live parameters into the reused scratch
buffer, upload it, record one render pass, and submit it to the queue; the
submission is logged by its frame timestamp. -/
def drawFrame (timeSeconds : ℚ) (s : EngineState) : EngineState :=
  { s with
    uniformData := perlinNoise1.writeUniforms s.uniformData timeSeconds
      (s.width : ℚ) (s.height : ℚ) s.dpr s.mergedParams
    submissions := s.submissions ++ [timeSeconds] }

/-- The per-frame callback `tick` (part_000, lines 130–135): render unless
`pausedByVisibility`, then reschedule unconditionally
(`rafId = requestAnimationFrame(tick)`, modelled by handing out the next
fresh handle). -/
def tick (s : EngineState) : EngineState :=
  let s1 := if s.pausedByVisibility then s
            else drawFrame ((s.now - s.startTime) / 1000) s
  { s1 with rafId := some s1.nextRafId, nextRafId := s1.nextRafId + 1 }

/-- `start()` (part_000, lines 137–146): return immediately if a frame
loop is already scheduled (`rafId != null`); otherwise reset the clock
origin, `configure()`, then either schedule the loop (animation enabled)
or render a single frame at time 0 (reduced motion). -/
def start (env : SurfaceEnv) (s : EngineState) : EngineState :=
  if s.rafId.isSome then s
  else
    let s1 := configure env { s with startTime := s.now }
    if s1.shouldAnimate then
      { s1 with rafId := some s1.nextRafId, nextRafId := s1.nextRafId + 1 }
    else
      drawFrame 0 s1

/-- `stop()` (part_000, lines 148–152): if no loop is scheduled, do
nothing; otherwise cancel the scheduled callback and clear the handle. -/
def stop (s : EngineState) : EngineState :=
  if s.rafId.isSome then { s with rafId := none } else s

/-- `destroy()` (part_000, lines 154–159): `stop()`, disconnect the
`ResizeObserver`, remove the visibility listener, and call
`uniformBuffer.destroy()` — unconditionally, there is no guard flag. -/
def destroy (s : EngineState) : EngineState :=
  let s1 := stop s
  { s1 with
    roConnected := false
    visibilityListenerRegistered := false
    uniformBufferDestroyed := s1.uniformBufferDestroyed + 1 }

/-- The `visibilitychange` listener `onVisibility` (part_000, lines 39–41):
`pausedByVisibility = document.hidden`. It only fires while registered
(i.e. before `destroy` removed it). -/
def onVisibility (hidden : Bool) (s : EngineState) : EngineState :=
  if s.visibilityListenerRegistered then { s with pausedByVisibility := hidden } else s

/-- The state built by a successful `createBackground` run (part_000):
merge the overrides over the descriptor defaults, compute the
construction-time animation decision
`shouldAnimate = !respectReducedMotion || !prefersReducedMotion`, register
the visibility listener and the `ResizeObserver`, allocate the
zero-initialised scratch buffer of `descriptor.uniformFloats` floats, and
run the initial `configure()` before returning. -/
def initState (overrides : PartialParams) (opts : Options) (prefersReducedMotion : Bool)
    (env : SurfaceEnv) (t0 : ℚ) : EngineState :=
  configure env
    { mergedParams := mergeParams perlinNoise1.defaultParams overrides
      shouldAnimate := !(opts.respectReducedMotion.getD true) || !prefersReducedMotion
      maxDpr := opts.maxDpr.getD 3
      pausedByVisibility := env.hidden
      visibilityListenerRegistered := true
      roConnected := true
      uniformData := List.replicate perlinNoise1.uniformFloats 0
      width := 1
      height := 1
      dpr := 1
      rafId := none
      nextRafId := 0
      startTime := t0
      now := t0
      submissions := []
      uniformBufferDestroyed := 0 }

/-- Host capabilities probed during initialization: `"gpu" in navigator`,
whether `requestAdapter` resolves to an adapter, whether
`canvas.getContext("webgpu")` yields a context, and the
`prefers-reduced-motion` media-query result. -/
structure HostEnv where
  gpuAvailable : Bool
  adapterAvailable : Bool
  contextAvailable : Bool
  prefersReducedMotion : Bool
  deriving DecidableEq, Repr

/-- The three initialization failures thrown by `createBackground`
(part_000, lines 21–23, 45, 50): missing WebGPU support, no adapter, no
canvas context. -/
inductive InitError where
  | unsupportedPlatform
  | noAdapter
  | surfaceUnavailable
  deriving DecidableEq, Repr

/-- The async `createBackground` (part_000, lines 15–164) as a fallible
initialization: the three capability checks in source order, then the
successful construction of the engine state. -/
def createBackground (host : HostEnv) (overrides : PartialParams) (opts : Options)
    (env : SurfaceEnv) (t0 : ℚ) : Except InitError EngineState :=
  if !host.gpuAvailable then .error .unsupportedPlatform
  else if !host.adapterAvailable then .error .noAdapter
  else if !host.contextAvailable then .error .surfaceUnavailable
  else .ok (initState overrides opts host.prefersReducedMotion env t0)

/-- The reachable engine states: a freshly constructed state, closed under
the caller-facing operations, the observer callbacks (`onVisibility` while
registered, `configure` while the `ResizeObserver` is connected), and the
scheduled `tick` callback (which can only fire while a frame request is
outstanding, `rafId != null`). -/
inductive Reachable : EngineState → Prop where
  | init (overrides : PartialParams) (opts : Options) (pr : Bool)
      (env : SurfaceEnv) (t0 : ℚ) :
      Reachable (initState overrides opts pr env t0)
  | step_start {s : EngineState} (env : SurfaceEnv) :
      Reachable s → Reachable (start env s)
  | step_stop {s : EngineState} : Reachable s → Reachable (stop s)
  | step_destroy {s : EngineState} : Reachable s → Reachable (destroy s)
  | step_visibility {s : EngineState} (hidden : Bool) :
      Reachable s → Reachable (onVisibility hidden s)
  | step_resize {s : EngineState} (env : SurfaceEnv) :
      Reachable s → s.roConnected = true → Reachable (configure env s)
  | step_tick {s : EngineState} :
      Reachable s → s.rafId.isSome = true → Reachable (tick s)

/-- Modelled from the spec: the Engine Facade (Controller) of §4.5/§6,
which "exposes `start()`, `stop()`, `destroy()`, and the `liveParams`
mapping (mutable by reference)". The `webgpuBackground.ts` revision that
adds the live parameter mapping to the returned object is missing from
`src/` — the snapshot `src/unnamed/part_000` returns only
`{ start, stop, destroy }` (lines 161–164), while its in-repo callers
`src/main.ts` (`bg.params`) and `src/pane.ts` (the panel bound to "the
live params object exposed by the Controller") require the mapping.
`params`/`setParams` model by-reference read/write access to the engine's
`mergedParams`; `start`, `stop`, `destroy` are the closures from
part_000 embedded above. -/
structure Controller where
  start : SurfaceEnv → EngineState → EngineState
  stop : EngineState → EngineState
  destroy : EngineState → EngineState
  params : EngineState → PerlinNoise1Params
  setParams : PerlinNoise1Params → EngineState → EngineState

/-- Modelled from the spec: the controller value returned by
`createBackground`, wiring the facade to the engine operations and to the
live `mergedParams` mapping. -/
def createBackgroundController : Controller where
  start := start
  stop := stop
  destroy := destroy
  params := fun s => s.mergedParams
  setParams := fun p s => { s with mergedParams := p }

section Helpers

variable (env : SurfaceEnv) (s : EngineState)

@[simp] lemma configure_mergedParams : (configure env s).mergedParams = s.mergedParams := rfl

@[simp] lemma configure_shouldAnimate : (configure env s).shouldAnimate = s.shouldAnimate := rfl

@[simp] lemma configure_pausedByVisibility :
    (configure env s).pausedByVisibility = s.pausedByVisibility := rfl

@[simp] lemma configure_rafId : (configure env s).rafId = s.rafId := rfl

@[simp] lemma configure_nextRafId : (configure env s).nextRafId = s.nextRafId := rfl

@[simp] lemma configure_submissions : (configure env s).submissions = s.submissions := rfl

@[simp] lemma configure_uniformData : (configure env s).uniformData = s.uniformData := rfl

@[simp] lemma configure_maxDpr : (configure env s).maxDpr = s.maxDpr := rfl

@[simp] lemma configure_now : (configure env s).now = s.now := rfl

@[simp] lemma configure_visibilityListenerRegistered :
    (configure env s).visibilityListenerRegistered = s.visibilityListenerRegistered := rfl

@[simp] lemma configure_roConnected : (configure env s).roConnected = s.roConnected := rfl

@[simp] lemma configure_uniformBufferDestroyed :
    (configure env s).uniformBufferDestroyed = s.uniformBufferDestroyed := rfl

variable (t : ℚ)

@[simp] lemma drawFrame_submissions : (drawFrame t s).submissions = s.submissions ++ [t] := rfl

@[simp] lemma drawFrame_rafId : (drawFrame t s).rafId = s.rafId := rfl

@[simp] lemma drawFrame_nextRafId : (drawFrame t s).nextRafId = s.nextRafId := rfl

@[simp] lemma drawFrame_shouldAnimate : (drawFrame t s).shouldAnimate = s.shouldAnimate := rfl

@[simp] lemma drawFrame_pausedByVisibility :
    (drawFrame t s).pausedByVisibility = s.pausedByVisibility := rfl

@[simp] lemma drawFrame_mergedParams : (drawFrame t s).mergedParams = s.mergedParams := rfl

@[simp] lemma drawFrame_uniformBufferDestroyed :
    (drawFrame t s).uniformBufferDestroyed = s.uniformBufferDestroyed := rfl

@[simp] lemma drawFrame_roConnected : (drawFrame t s).roConnected = s.roConnected := rfl

@[simp] lemma drawFrame_visibilityListenerRegistered :
    (drawFrame t s).visibilityListenerRegistered = s.visibilityListenerRegistered := rfl

lemma stop_rafId : (stop s).rafId = none := by
  cases h : s.rafId <;> simp [stop, h]

lemma stop_of_rafId_none (h : s.rafId = none) : stop s = s := by
  simp [stop, h]

@[simp] lemma stop_shouldAnimate : (stop s).shouldAnimate = s.shouldAnimate := by
  unfold stop; split <;> rfl

@[simp] lemma stop_submissions : (stop s).submissions = s.submissions := by
  unfold stop; split <;> rfl

@[simp] lemma stop_uniformBufferDestroyed :
    (stop s).uniformBufferDestroyed = s.uniformBufferDestroyed := by
  unfold stop; split <;> rfl

@[simp] lemma stop_roConnected : (stop s).roConnected = s.roConnected := by
  unfold stop; split <;> rfl

@[simp] lemma stop_visibilityListenerRegistered :
    (stop s).visibilityListenerRegistered = s.visibilityListenerRegistered := by
  unfold stop; split <;> rfl

@[simp] lemma onVisibility_rafId (b : Bool) : (onVisibility b s).rafId = s.rafId := by
  unfold onVisibility; split <;> rfl

@[simp] lemma onVisibility_shouldAnimate (b : Bool) :
    (onVisibility b s).shouldAnimate = s.shouldAnimate := by
  unfold onVisibility; split <;> rfl

lemma tick_of_paused (h : s.pausedByVisibility = true) :
    tick s = { s with rafId := some s.nextRafId, nextRafId := s.nextRafId + 1 } := by
  simp [tick, h]

lemma tick_rafId : (tick s).rafId = some s.nextRafId := by
  cases h : s.pausedByVisibility <;> simp [tick, h]

lemma tick_shouldAnimate : (tick s).shouldAnimate = s.shouldAnimate := by
  cases h : s.pausedByVisibility <;> simp [tick, h]

/-- In reduced-motion mode (`shouldAnimate = false`), a `start()` on an
engine with no outstanding frame request takes the single-frame branch. -/
lemma start_no_animate_eq (hna : s.shouldAnimate = false) (hr : s.rafId = none) :
    start env s = drawFrame 0 (configure env { s with startTime := s.now }) := by
  simp [start, hr, hna]

/-- With animation enabled, a `start()` on an engine with no outstanding
frame request schedules the loop. -/
lemma start_animate_eq (hsa : s.shouldAnimate = true) (hr : s.rafId = none) :
    start env s =
      { configure env { s with startTime := s.now } with
        rafId := some s.nextRafId, nextRafId := s.nextRafId + 1 } := by
  simp [start, hr, hsa]

lemma start_of_running (h : s.rafId.isSome = true) : start env s = s := by
  simp [start, h]

lemma configure_dpr : (configure env s).dpr =
    max 1 (min s.maxDpr
      (match env.devicePixelRatio with
       | none => 1
       | some x => if x = 0 then 1 else x)) := rfl

lemma configure_width : (configure env s).width =
    max 1 ⌊((max 1 ⌊env.clientWidth⌋ : ℤ) : ℚ) * (configure env s).dpr⌋ := rfl

lemma configure_height : (configure env s).height =
    max 1 ⌊((max 1 ⌊env.clientHeight⌋ : ℤ) : ℚ) * (configure env s).dpr⌋ := rfl

lemma start_shouldAnimate : (start env s).shouldAnimate = s.shouldAnimate := by
  cases h : s.rafId.isSome with
  | true => rw [start_of_running env s h]
  | false =>
    have hr : s.rafId = none := by
      cases hh : s.rafId <;> simp [hh] at h ⊢
    cases h2 : s.shouldAnimate with
    | true => rw [start_animate_eq env s h2 hr]; simp [h2]
    | false => rw [start_no_animate_eq env s h2 hr]; simp [h2]

end Helpers

end WebgpuBg

namespace WebgpuBg

/-- C7: for the `perlinNoise1` descriptor (16 uniform floats, 10 named
parameter floats plus 2 padding fields), `writeUniforms` on a
zero-initialised 16-float buffer at `time = 1`, `width = 800`,
`height = 600`, `dpr = 2` and any parameter record writes
`1, 800, 600, 2` at indices 0–3 and the ten parameters in declared order at
indices 4–13, leaving indices 14 and 15 at zero. -/
theorem writeUniforms_layout (p : PerlinNoise1Params) :
    perlinNoise1.uniformFloats = 16 ∧
    perlinNoise1.writeUniforms (List.replicate 16 0) 1 800 600 2 p =
      [1, 800, 600, 2,
       p.baseR, p.baseG, p.baseB,
       p.colAr, p.colAg, p.colAb,
       p.colBr, p.colBg, p.colBb,
       p.speed, 0, 0] :=
  ⟨rfl, rfl⟩

/-- Witness for C7 at the descriptor's default parameter record. -/
theorem writeUniforms_layout_witness :
    perlinNoise1.uniformFloats = 16 ∧
    perlinNoise1.writeUniforms (List.replicate 16 0) 1 800 600 2
        perlinNoise1.defaultParams =
      [1, 800, 600, 2,
       perlinNoise1.defaultParams.baseR, perlinNoise1.defaultParams.baseG,
       perlinNoise1.defaultParams.baseB,
       perlinNoise1.defaultParams.colAr, perlinNoise1.defaultParams.colAg,
       perlinNoise1.defaultParams.colAb,
       perlinNoise1.defaultParams.colBr, perlinNoise1.defaultParams.colBg,
       perlinNoise1.defaultParams.colBb,
       perlinNoise1.defaultParams.speed, 0, 0] :=
  writeUniforms_layout perlinNoise1.defaultParams

/-- A visible surface: dpr hint 1, a 100×100 canvas, document not hidden. -/
def envVisible : SurfaceEnv := ⟨some 1, 100, 100, false⟩

/-- A hidden surface: dpr hint 1, a 100×100 canvas, document hidden. -/
def envHidden : SurfaceEnv := ⟨some 1, 100, 100, true⟩

/-- A freshly constructed engine with animation enabled (no reduced-motion
preference) on a visible surface. -/
def sAnimating : EngineState := initState {} {} false envVisible 0

/-- A freshly constructed engine in reduced-motion mode (default options,
platform prefers reduced motion) on a visible surface. -/
def sReducedMotion : EngineState := initState {} {} true envVisible 0

/-- An animating engine started while the document is hidden: running
(loop scheduled) and visibility-paused. -/
def sPausedRunning : EngineState := start envHidden (initState {} {} false envHidden 0)

/-- C5: in every reachable running state with `pausedByVisibility` set,
any number of consecutive ticks leaves the submission log and the uniform
scratch buffer untouched (no render, no GPU submission) while a frame
request stays outstanding (the cadence never halts while hidden), the
pause flag persists until a visibility event changes it, and `stop()`
cancels the outstanding request. -/
theorem tick_paused_reschedules (s : EngineState) (n : ℕ)
    (hreach : Reachable s) (hrun : s.rafId.isSome = true)
    (hp : s.pausedByVisibility = true) :
    (tick^[n] s).submissions = s.submissions
    ∧ (tick^[n] s).uniformData = s.uniformData
    ∧ (tick^[n] s).rafId.isSome = true
    ∧ (tick^[n] s).pausedByVisibility = true
    ∧ (stop (tick^[n] s)).rafId = none := by
  induction n with
  | zero => exact ⟨rfl, rfl, hrun, hp, stop_rafId s⟩
  | succ n ih =>
    obtain ⟨h1, h2, h3, h4, h5⟩ := ih
    rw [Function.iterate_succ_apply']
    have ht := tick_of_paused (tick^[n] s) h4
    exact ⟨by rw [ht]; exact h1, by rw [ht]; exact h2, by rw [ht]; rfl,
      by rw [ht]; exact h4, stop_rafId _⟩

/-- Witness for C5 at a concrete paused running engine and two ticks. -/
theorem tick_paused_reschedules_witness :
    (tick^[2] sPausedRunning).submissions = sPausedRunning.submissions
    ∧ (tick^[2] sPausedRunning).uniformData = sPausedRunning.uniformData
    ∧ (tick^[2] sPausedRunning).rafId.isSome = true
    ∧ (tick^[2] sPausedRunning).pausedByVisibility = true
    ∧ (stop (tick^[2] sPausedRunning)).rafId = none :=
  tick_paused_reschedules sPausedRunning 2
    (Reachable.step_start envHidden (Reachable.init {} {} false envHidden 0))
    rfl rfl

/-- The C9 invariant: in reduced-motion mode no reachable state has an
outstanding frame request. -/
lemma reachable_no_loop {s : EngineState} (hreach : Reachable s) :
    s.shouldAnimate = false → s.rafId = none := by
  induction hreach with
  | init ov opts pr env t0 => intro _; rfl
  | step_start env a ih =>
    intro h
    rw [start_shouldAnimate] at h
    have hnone := ih h
    rw [start_no_animate_eq _ _ h hnone]
    simp [hnone]
  | step_stop a ih => intro _; exact stop_rafId _
  | step_destroy a ih => intro _; exact stop_rafId _
  | step_visibility b a ih =>
    intro h
    rw [onVisibility_shouldAnimate] at h
    rw [onVisibility_rafId]
    exact ih h
  | step_resize env a h2 ih =>
    intro h
    rw [configure_shouldAnimate] at h
    rw [configure_rafId]
    exact ih h
  | step_tick a h2 ih =>
    intro h
    rw [tick_shouldAnimate] at h
    rw [ih h] at h2
    simp at h2

/-- C9: when animation is disabled at construction (reduced-motion mode),
every reachable state has `rafId = none`; `start()` never schedules a
frame callback (so its already-running guard never fires) and instead
renders exactly one frame at time 0, and `stop()` is a no-op. -/
theorem reduced_motion_no_loop (s : EngineState) (hreach : Reachable s)
    (hna : s.shouldAnimate = false) :
    s.rafId = none
    ∧ (∀ env, (start env s).rafId = none
        ∧ (start env s).submissions = s.submissions ++ [0])
    ∧ stop s = s := by
  have hnone := reachable_no_loop hreach hna
  refine ⟨hnone, fun env => ?_, stop_of_rafId_none s hnone⟩
  rw [start_no_animate_eq env s hna hnone]
  exact ⟨by simp [hnone], by simp⟩

/-- Witness for C9 at a concrete freshly constructed reduced-motion
engine. -/
theorem reduced_motion_no_loop_witness :
    sReducedMotion.rafId = none
    ∧ (∀ env, (start env sReducedMotion).rafId = none
        ∧ (start env sReducedMotion).submissions = sReducedMotion.submissions ++ [0])
    ∧ stop sReducedMotion = sReducedMotion :=
  reduced_motion_no_loop sReducedMotion (Reachable.init {} {} true envVisible 0) rfl

/-- C6, counterexample to the universal claim: on an engine constructed in
reduced-motion mode (`shouldAnimate = false`), calling `start()` twice is
observably different from calling it once — the second call renders and
submits a second frame, because the first call left no loop handle behind
for the `rafId != null` guard to see. -/
theorem start_twice_reduced_motion_counterexample :
    ¬ (start envVisible (start envVisible sReducedMotion) = start envVisible sReducedMotion) := by
  intro hEq
  have hsub := congrArg EngineState.submissions hEq
  have hna : sReducedMotion.shouldAnimate = false := rfl
  have hr : sReducedMotion.rafId = none := rfl
  rw [start_no_animate_eq envVisible sReducedMotion hna hr] at hsub
  have hna2 : (drawFrame 0 (configure envVisible
      { sReducedMotion with startTime := sReducedMotion.now })).shouldAnimate = false := rfl
  have hr2 : (drawFrame 0 (configure envVisible
      { sReducedMotion with startTime := sReducedMotion.now })).rafId = none := rfl
  rw [start_no_animate_eq envVisible _ hna2 hr2] at hsub
  have hlen := congrArg List.length hsub
  simp at hlen

/-- C6, amended: when animation is enabled, calling `start()` twice in a
row without an intervening `stop()` has exactly the same effect as calling
it once — the first call leaves a frame request outstanding, so the second
call hits the `rafId != null` guard and is a no-op, and no duplicate loop
is ever scheduled. -/
theorem start_idempotent_animating (env : SurfaceEnv) (s : EngineState)
    (h : s.shouldAnimate = true) :
    start env (start env s) = start env s := by
  cases hs : s.rafId.isSome with
  | true => rw [start_of_running env s hs, start_of_running env s hs]
  | false =>
    have hr : s.rafId = none := by
      cases hh : s.rafId <;> simp [hh] at hs ⊢
    have h1 : (start env s).rafId.isSome = true := by
      rw [start_animate_eq env s h hr]; rfl
    exact start_of_running env _ h1

/-- Witness for the amended C6 at a concrete animating engine. -/
theorem start_idempotent_animating_witness :
    start envVisible (start envVisible sAnimating) = start envVisible sAnimating :=
  start_idempotent_animating envVisible sAnimating rfl

/-- C3, counterexample to the guard: `destroy()` has no re-entry guard, so
a second call releases the GPU uniform buffer a second time
(`uniformBuffer.destroy()` runs once per call, reaching an invocation
count of 2). -/
theorem destroy_double_release_counterexample :
    (destroy (destroy sAnimating)).uniformBufferDestroyed
        ≠ (destroy sAnimating).uniformBufferDestroyed
    ∧ (destroy (destroy sAnimating)).uniformBufferDestroyed = 2 := by
  exact ⟨by decide, by decide⟩

/-- C3, amended: a single `destroy()` performs `stop()` (no frame request
remains), disconnects the layout observer, removes the visibility
listener, and releases the uniform buffer exactly once — but it is not
guarded, so a second call releases the buffer again. -/
theorem destroy_teardown (s : EngineState) :
    (destroy s).rafId = none
    ∧ (destroy s).roConnected = false
    ∧ (destroy s).visibilityListenerRegistered = false
    ∧ (destroy s).uniformBufferDestroyed = s.uniformBufferDestroyed + 1
    ∧ (destroy (destroy s)).uniformBufferDestroyed = s.uniformBufferDestroyed + 2 := by
  refine ⟨?_, rfl, rfl, ?_, ?_⟩
  · exact stop_rafId _
  · show (stop s).uniformBufferDestroyed + 1 = s.uniformBufferDestroyed + 1
    rw [stop_uniformBufferDestroyed]
  · show (stop (destroy s)).uniformBufferDestroyed + 1 = s.uniformBufferDestroyed + 2
    rw [stop_uniformBufferDestroyed]
    show (stop s).uniformBufferDestroyed + 1 + 1 = _
    rw [stop_uniformBufferDestroyed]

/-- Witness for the amended C3 at a concrete fresh engine. -/
theorem destroy_teardown_witness :
    (destroy sReducedMotion).rafId = none
    ∧ (destroy sReducedMotion).roConnected = false
    ∧ (destroy sReducedMotion).visibilityListenerRegistered = false
    ∧ (destroy sReducedMotion).uniformBufferDestroyed =
        sReducedMotion.uniformBufferDestroyed + 1
    ∧ (destroy (destroy sReducedMotion)).uniformBufferDestroyed =
        sReducedMotion.uniformBufferDestroyed + 2 :=
  destroy_teardown sReducedMotion

/-- A zero-sized surface with a dpr hint of 2. -/
def envC2 : SurfaceEnv := ⟨some 2, 0, 0, false⟩

/-- An engine constructed on the zero-sized surface `envC2` (default
options, so `maxDpr = 3`). -/
def sC2 : EngineState := initState {} {} false envC2 0

/-- C2, counterexample: with a logical size of 0 and a dpr hint of 2,
`configure()` yields a pixel width of 2 (the logical size is clamped to 1
BEFORE the dpr multiplication), not the claimed
`max(1, floor(logicalWidth * dpr)) = 1`. -/
theorem configure_zero_size_counterexample :
    sC2.width = 2 ∧ sC2.width ≠ max 1 ⌊envC2.clientWidth * sC2.dpr⌋ := by
  have hdpr : sC2.dpr = 2 := by
    simp only [sC2, initState, configure_dpr, envC2]
    norm_num [min_def, max_def, Option.getD]
  have hw : sC2.width = 2 := by
    simp only [sC2, initState] at hdpr ⊢
    rw [configure_width, hdpr]
    norm_num [envC2, max_def]
  refine ⟨hw, ?_⟩
  rw [hw, hdpr]
  norm_num [envC2]

/-- C2, amended: `configure()` clamps the logical size to an integer
minimum of 1 before applying the pixel ratio: with a positive dpr hint,
`dpr` lands in `[1, maxDpr]`, and `pixelWidth = max(1, floor(cssW * dpr))`
with `cssW = max(1, floor(logicalWidth))`. For integer logical sizes ≥ 1
this agrees with the claimed `max(1, floor(logicalWidth * dpr))` (and is
always ≥ 1), but a logical size of 0 yields a pixel size of
`floor(dpr)` — which is 1 only when `dpr < 2`, not 1 in general. -/
theorem configure_pixel_size (s : EngineState) (env : SurfaceEnv) (n m : ℤ) (hint : ℚ)
    (hn : 1 ≤ n) (hm : 1 ≤ m) (hhint : 0 < hint) (hmax : 1 ≤ s.maxDpr)
    (hw : env.clientWidth = (n : ℚ)) (hh : env.clientHeight = (m : ℚ))
    (hd : env.devicePixelRatio = some hint) :
    (1 ≤ (configure env s).dpr ∧ (configure env s).dpr ≤ s.maxDpr)
    ∧ (configure env s).width = max 1 ⌊(n : ℚ) * (configure env s).dpr⌋
    ∧ (configure env s).height = max 1 ⌊(m : ℚ) * (configure env s).dpr⌋
    ∧ 1 ≤ (configure env s).width ∧ 1 ≤ (configure env s).height
    ∧ (∀ env2 : SurfaceEnv, env2.clientWidth = 0 →
        env2.devicePixelRatio = env.devicePixelRatio →
        (configure env2 s).width = ⌊(configure env2 s).dpr⌋) := by
  have hdpr : (configure env s).dpr = max 1 (min s.maxDpr hint) := by
    rw [configure_dpr, hd]
    simp [hhint.ne']
  refine ⟨⟨?_, ?_⟩, ?_, ?_, ?_, ?_, ?_⟩
  · rw [hdpr]; exact le_max_left _ _
  · rw [hdpr]; exact max_le hmax (min_le_left _ _)
  · rw [configure_width, hw, Int.floor_intCast, max_eq_right hn]
  · rw [configure_height, hh, Int.floor_intCast, max_eq_right hm]
  · rw [configure_width]; exact le_max_left _ _
  · rw [configure_height]; exact le_max_left _ _
  · intro env2 h0 hd2
    have e1 : (configure env2 s).dpr = (configure env s).dpr := by
      rw [configure_dpr, configure_dpr, hd2]
    have hd21 : (1 : ℚ) ≤ (configure env2 s).dpr := by
      rw [e1, hdpr]; exact le_max_left _ _
    have hfl : (1 : ℤ) ≤ ⌊(configure env2 s).dpr⌋ := by
      rw [Int.le_floor]; exact_mod_cast hd21
    rw [configure_width, h0]
    norm_num
    exact hfl

/-- Witness for the amended C2 at a 2×3 logical surface with dpr hint 2
and the default `maxDpr = 3`. -/
theorem configure_pixel_size_witness :
    (1 ≤ (configure ⟨some 2, 2, 3, false⟩ sAnimating).dpr
      ∧ (configure ⟨some 2, 2, 3, false⟩ sAnimating).dpr ≤ sAnimating.maxDpr)
    ∧ (configure ⟨some 2, 2, 3, false⟩ sAnimating).width =
        max 1 ⌊((2 : ℤ) : ℚ) * (configure ⟨some 2, 2, 3, false⟩ sAnimating).dpr⌋
    ∧ (configure ⟨some 2, 2, 3, false⟩ sAnimating).height =
        max 1 ⌊((3 : ℤ) : ℚ) * (configure ⟨some 2, 2, 3, false⟩ sAnimating).dpr⌋
    ∧ 1 ≤ (configure ⟨some 2, 2, 3, false⟩ sAnimating).width
    ∧ 1 ≤ (configure ⟨some 2, 2, 3, false⟩ sAnimating).height
    ∧ (∀ env2 : SurfaceEnv, env2.clientWidth = 0 →
        env2.devicePixelRatio = SurfaceEnv.devicePixelRatio ⟨some 2, 2, 3, false⟩ →
        (configure env2 sAnimating).width = ⌊(configure env2 sAnimating).dpr⌋) :=
  configure_pixel_size sAnimating ⟨some 2, 2, 3, false⟩ 2 3 2
    (by norm_num) (by norm_num) (by norm_num)
    (by norm_num [sAnimating, initState, Option.getD]) (by norm_num) (by norm_num) rfl

/-- A surface whose `window.devicePixelRatio` is absent. -/
def envNoDpr : SurfaceEnv := ⟨none, 100, 100, false⟩

/-- C10: when the ambient device-pixel-ratio hint is absent or zero (a
falsy value), `configure()` substitutes 1 for it before clamping
(`window.devicePixelRatio || 1`), so for any `maxDpr ≥ 1` the resulting
`dpr` is exactly 1 — a well-defined value of at least 1. -/
theorem dpr_falsy_defaults_to_one (s : EngineState) (env : SurfaceEnv)
    (hmax : 1 ≤ s.maxDpr)
    (hfalsy : env.devicePixelRatio = none ∨ env.devicePixelRatio = some 0) :
    (configure env s).dpr = 1 ∧ 1 ≤ (configure env s).dpr := by
  have hm : (match env.devicePixelRatio with
      | none => (1 : ℚ)
      | some x => if x = 0 then 1 else x) = 1 := by
    rcases hfalsy with h | h <;> rw [h] <;> simp
  have h1 : (configure env s).dpr = max 1 (min s.maxDpr 1) := by
    rw [configure_dpr, hm]
  rw [h1, min_eq_right hmax, max_self]
  exact ⟨rfl, le_refl 1⟩

/-- Witness for C10: an absent dpr hint on a fresh default-options engine
(`maxDpr = 3`) yields `dpr = 1`. -/
theorem dpr_falsy_defaults_to_one_witness :
    (configure envNoDpr sAnimating).dpr = 1 ∧ 1 ≤ (configure envNoDpr sAnimating).dpr :=
  dpr_falsy_defaults_to_one sAnimating envNoDpr
    (by norm_num [sAnimating, initState, Option.getD]) (Or.inl rfl)

/-- C4: `createBackground` fails, with no retry, in exactly the three
capability-gap cases — missing WebGPU support (`navigator.gpu` absent),
no adapter from negotiation, and no presentable context from the target
canvas — each surfacing as the corresponding initialization error, and
succeeds whenever all three capabilities are present. -/
theorem createBackground_failure_cases (host : HostEnv) (ov : PartialParams)
    (opts : Options) (env : SurfaceEnv) (t0 : ℚ) :
    (createBackground host ov opts env t0).isOk =
      (host.gpuAvailable && host.adapterAvailable && host.contextAvailable)
    ∧ (host.gpuAvailable = false →
        createBackground host ov opts env t0 = .error .unsupportedPlatform)
    ∧ (host.gpuAvailable = true → host.adapterAvailable = false →
        createBackground host ov opts env t0 = .error .noAdapter)
    ∧ (host.gpuAvailable = true → host.adapterAvailable = true →
        host.contextAvailable = false →
        createBackground host ov opts env t0 = .error .surfaceUnavailable) := by
  obtain ⟨g, a, c, p⟩ := host
  cases g <;> cases a <;> cases c <;>
    simp [createBackground, Except.isOk, Except.toBool]

/-- Witness for C4: each of the three capability gaps at a concrete host,
each failing with its own error. -/
theorem createBackground_failure_cases_witness :
    createBackground ⟨false, true, true, false⟩ {} {} envVisible 0 =
        .error .unsupportedPlatform
    ∧ createBackground ⟨true, false, true, false⟩ {} {} envVisible 0 = .error .noAdapter
    ∧ createBackground ⟨true, true, false, false⟩ {} {} envVisible 0 =
        .error .surfaceUnavailable :=
  ⟨(createBackground_failure_cases ⟨false, true, true, false⟩ {} {} envVisible 0).2.1 rfl,
   (createBackground_failure_cases ⟨true, false, true, false⟩ {} {} envVisible 0).2.2.1 rfl rfl,
   (createBackground_failure_cases ⟨true, true, false, false⟩ {} {} envVisible 0).2.2.2
     rfl rfl rfl⟩

/-- C8: at initialization the live mapping is the overrides merged over
the descriptor defaults; overriding `{speed := 0.3}` and reading `speed`
back yields `0.3`, and every key not present in the overrides retains its
descriptor default. -/
theorem merge_params_roundtrip (ov : PartialParams) (opts : Options) (pr : Bool)
    (env : SurfaceEnv) (t0 : ℚ) :
    (initState ov opts pr env t0).mergedParams = mergeParams perlinNoise1.defaultParams ov
    ∧ (mergeParams perlinNoise1.defaultParams { ov with speed := some (3/10) }).speed = 3/10
    ∧ (ov.baseR = none →
        (mergeParams perlinNoise1.defaultParams ov).baseR = perlinNoise1.defaultParams.baseR)
    ∧ (ov.baseG = none →
        (mergeParams perlinNoise1.defaultParams ov).baseG = perlinNoise1.defaultParams.baseG)
    ∧ (ov.baseB = none →
        (mergeParams perlinNoise1.defaultParams ov).baseB = perlinNoise1.defaultParams.baseB)
    ∧ (ov.colAr = none →
        (mergeParams perlinNoise1.defaultParams ov).colAr = perlinNoise1.defaultParams.colAr)
    ∧ (ov.colAg = none →
        (mergeParams perlinNoise1.defaultParams ov).colAg = perlinNoise1.defaultParams.colAg)
    ∧ (ov.colAb = none →
        (mergeParams perlinNoise1.defaultParams ov).colAb = perlinNoise1.defaultParams.colAb)
    ∧ (ov.colBr = none →
        (mergeParams perlinNoise1.defaultParams ov).colBr = perlinNoise1.defaultParams.colBr)
    ∧ (ov.colBg = none →
        (mergeParams perlinNoise1.defaultParams ov).colBg = perlinNoise1.defaultParams.colBg)
    ∧ (ov.colBb = none →
        (mergeParams perlinNoise1.defaultParams ov).colBb = perlinNoise1.defaultParams.colBb)
    ∧ (ov.speed = none →
        (mergeParams perlinNoise1.defaultParams ov).speed = perlinNoise1.defaultParams.speed)
    ∧ (ov.pad0 = none →
        (mergeParams perlinNoise1.defaultParams ov).pad0 = perlinNoise1.defaultParams.pad0)
    ∧ (ov.pad1 = none →
        (mergeParams perlinNoise1.defaultParams ov).pad1 = perlinNoise1.defaultParams.pad1) := by
  refine ⟨rfl, rfl, ?_, ?_, ?_, ?_, ?_, ?_, ?_, ?_, ?_, ?_, ?_, ?_⟩ <;>
    (intro h; simp [mergeParams, h])

/-- Witness for C8 at the empty override record. -/
theorem merge_params_roundtrip_witness :
    (mergeParams perlinNoise1.defaultParams
        { ({} : PartialParams) with speed := some (3/10) }).speed = 3/10
    ∧ (mergeParams perlinNoise1.defaultParams ({} : PartialParams)).baseR =
        perlinNoise1.defaultParams.baseR
    ∧ (mergeParams perlinNoise1.defaultParams ({} : PartialParams)).speed =
        perlinNoise1.defaultParams.speed :=
  ⟨(merge_params_roundtrip {} {} false envVisible 0).2.1,
   (merge_params_roundtrip {} {} false envVisible 0).2.2.1 rfl,
   (merge_params_roundtrip {} {} false envVisible 0).2.2.2.2.2.2.2.2.2.2.2.1 rfl⟩

/-- C1: the controller exposes `start()`, `stop()`, `destroy()` and the
live parameter mapping with direct read/write access, and an external
mutation of the mapping is read by the render operation on the very next
frame: the next `tick` writes the uniforms from the mutated values.
(Controller modelled from the spec — see `Controller`; the render path is
the embedded part_000 `tick`/`drawFrame`.) -/
theorem controller_surface_liveParams (s : EngineState) (pNew : PerlinNoise1Params)
    (h : s.pausedByVisibility = false) :
    createBackgroundController.start = start
    ∧ createBackgroundController.stop = stop
    ∧ createBackgroundController.destroy = destroy
    ∧ createBackgroundController.params (createBackgroundController.setParams pNew s) = pNew
    ∧ (tick (createBackgroundController.setParams pNew s)).uniformData =
        perlinNoise1.writeUniforms s.uniformData ((s.now - s.startTime) / 1000)
          (s.width : ℚ) (s.height : ℚ) s.dpr pNew := by
  refine ⟨rfl, rfl, rfl, rfl, ?_⟩
  simp [createBackgroundController, tick, h, drawFrame]

/-- Witness for C1: on a concrete running-visible engine, mutating `speed`
through the controller is read back and used by the next frame. -/
theorem controller_surface_liveParams_witness :
    createBackgroundController.start = start
    ∧ createBackgroundController.stop = stop
    ∧ createBackgroundController.destroy = destroy
    ∧ createBackgroundController.params
        (createBackgroundController.setParams
          { perlinNoise1.defaultParams with speed := 3/10 } sAnimating) =
        { perlinNoise1.defaultParams with speed := 3/10 }
    ∧ (tick (createBackgroundController.setParams
          { perlinNoise1.defaultParams with speed := 3/10 } sAnimating)).uniformData =
        perlinNoise1.writeUniforms sAnimating.uniformData
          ((sAnimating.now - sAnimating.startTime) / 1000)
          (sAnimating.width : ℚ) (sAnimating.height : ℚ) sAnimating.dpr
          { perlinNoise1.defaultParams with speed := 3/10 } :=
  controller_surface_liveParams sAnimating
    { perlinNoise1.defaultParams with speed := 3/10 } rfl

end WebgpuBg
